import Mathlib

/-
Shallow embedding of the report-composition core of
`src/CHEWBBACA/SchemaEvaluator/resources/loci_reports/src/pages/LocusPage.js`.

The page reads a precomputed bundle (`window.preComputedDataInd`), derives
two Plotly datasets (allele-length histogram, id-vs-length scatter), two
FASTA-style text blocks (DNA / protein), passes the phylogeny through, and
keeps a tab-panel selection state.  Strings are modelled as `List Char`,
JavaScript numbers occurring here as `Int` (all are integer literals or
integer data), and the fractional layout constant as `ℚ`.
-/

/-- A named biological sequence record, as found in the `dna.sequences`
and `protein.sequences` arrays of the precomputed bundle. -/
structure SeqRecord where
  name : List Char
  sequence : List Char
  deriving DecidableEq, Repr

/-- One section of the summary table: `summaryData[i].rows` is a list of
rows, each row a list of cell values. -/
structure TableSection where
  rows : List (List (List Char))
  deriving DecidableEq, Repr

/-- The `phylo` field of the bundle; `phylo_data` is opaque tree data
(owned by the external tree widget), hence a type parameter. -/
structure PhyloField (τ : Type) where
  phylo_data : τ

/-- The `dna` / `protein` fields of the bundle: a wrapper holding the
`sequences` array. -/
structure SeqsField where
  sequences : List SeqRecord
  deriving DecidableEq, Repr

/-- The precomputed bundle `window.preComputedDataInd` as read by
`LocusPage`. -/
structure Bundle (τ : Type) where
  summaryData : List TableSection
  lengths : List Int
  ids : List (List Char)
  phylo : PhyloField τ
  dna : SeqsField
  protein : SeqsField

/-- `const locusName = summaryData[1].rows[0][0]` (out-of-range access is
modelled with empty defaults; the JS-level failure semantics is treated
separately by `locusPageAccess` below). -/
def locusName {τ : Type} (data : Bundle τ) : List Char :=
  ((data.summaryData.getD 1 { rows := [] }).rows.getD 0 []).getD 0 []

/-- `marker.line` sub-object of a Plotly trace. -/
structure MarkerLine where
  color : List Char
  width : Int
  deriving DecidableEq, Repr

/-- `marker` sub-object of a Plotly trace (panel B's marker has no `line`). -/
structure Marker where
  color : List Char
  line : Option MarkerLine
  deriving DecidableEq, Repr

/-- A Plotly trace as assembled by `LocusPage` (`x`/`y` element types are
parameters: panel A uses numbers for both, panel B uses ids for `x`).
Panel A's trace carries no `mode`, hence the `Option`. -/
structure Trace (α β : Type) where
  x : List α
  y : List β
  type : List Char
  name : List Char
  mode : Option (List Char)
  marker : Marker

/-- `toImageButtonOptions` of a Plotly config object. -/
structure ToImageButtonOptions where
  format : List Char
  filename : List Char
  height : Int
  width : Int
  scale : Int
  deriving DecidableEq, Repr

/-- A Plotly config object (`configPanelA` / `configPanelB`). -/
structure PlotConfig where
  toImageButtonOptions : ToImageButtonOptions
  deriving DecidableEq, Repr

/-- A Plotly layout object (`layoutPanelA` / `layoutPanelB`). -/
structure Layout where
  bargroupgap : ℚ
  deriving DecidableEq, Repr

/-- `const xDataPanelA = data.lengths`. -/
def xDataPanelA {τ : Type} (data : Bundle τ) : List Int := data.lengths

/-- `const yDataPanelA = data.lengths`. -/
def yDataPanelA {τ : Type} (data : Bundle τ) : List Int := data.lengths

/-- The single trace object inside `plotDataPanelA`. -/
def panelATrace {τ : Type} (data : Bundle τ) : Trace Int Int :=
  { x := xDataPanelA data
    y := yDataPanelA data
    type := "histogram".data
    name := locusName data
    mode := none
    marker :=
      { color := "#0570b0".data
        line := some { color := "#a6bddb".data, width := 1 } } }

/-- `const plotDataPanelA = [{...}]`. -/
def plotDataPanelA {τ : Type} (data : Bundle τ) : List (Trace Int Int) :=
  [panelATrace data]

/-- `const layoutPanelA = {bargroupgap: 0.05}`. -/
def layoutPanelA : Layout := { bargroupgap := 1 / 20 }

/-- `const configPanelA = {toImageButtonOptions: {format: 'svg',
filename: locusName_AlleleSizes, height: 500, width: 700, scale: 1}}`. -/
def configPanelA {τ : Type} (data : Bundle τ) : PlotConfig :=
  { toImageButtonOptions :=
      { format := "svg".data
        filename := locusName data ++ "_AlleleSizes".data
        height := 500
        width := 700
        scale := 1 } }

/-- `const xDataPanelB = data.ids`. -/
def xDataPanelB {τ : Type} (data : Bundle τ) : List (List Char) := data.ids

/-- `const yDataPanelB = xDataPanelA`. -/
def yDataPanelB {τ : Type} (data : Bundle τ) : List Int := xDataPanelA data

/-- The single trace object inside `plotDataPanelB`. -/
def panelBTrace {τ : Type} (data : Bundle τ) : Trace (List Char) Int :=
  { x := xDataPanelB data
    y := yDataPanelB data
    type := "scatter".data
    name := "Distribution of allele mode sizes per gene".data
    mode := some ("markers".data)
    marker := { color := "#0570b0".data, line := none } }

/-- `const plotDataPanelB = [{...}]`. -/
def plotDataPanelB {τ : Type} (data : Bundle τ) : List (Trace (List Char) Int) :=
  [panelBTrace data]

/-- `const layoutPanelB = {bargroupgap: 0.05}`. -/
def layoutPanelB : Layout := { bargroupgap := 1 / 20 }

/-- `const configPanelB = {toImageButtonOptions: {format: 'svg',
filename: 'AlleleModeSize', height: 500, width: 700, scale: 1}}`. -/
def configPanelB {τ : Type} (_data : Bundle τ) : PlotConfig :=
  { toImageButtonOptions :=
      { format := "svg".data
        filename := "AlleleModeSize".data
        height := 500
        width := 700
        scale := 1 } }

/-- The points of a trace: index-wise pairing of the parallel `x` and `y`
arrays. -/
def points {α β : Type} (t : Trace α β) : List (α × β) := t.x.zip t.y

/-- One formatted entry of the sequence text: the body of the arrow
function mapped over the sequences, producing the marker-prefixed
two-line record followed by a line terminator. -/
def sequenceStr (seq : SeqRecord) : List Char :=
  '>' :: (seq.name ++ '\n' :: (seq.sequence ++ ['\n']))

/-- The sequence formatter: map `sequenceStr` over the record list and
join with the empty separator (`dnaText`/`proteinText` followed by
`.join('')`). -/
def formatSeqs (seqs : List SeqRecord) : List Char :=
  (seqs.map sequenceStr).flatten

/-- `const dnaText = dnaSequences.map(...)`. -/
def dnaText {τ : Type} (data : Bundle τ) : List (List Char) :=
  data.dna.sequences.map sequenceStr

/-- `const joinedDNA = dnaText.join('')`. -/
def joinedDNA {τ : Type} (data : Bundle τ) : List Char :=
  (dnaText data).flatten

/-- `const proteinText = proteinSequences.map(...)`. -/
def proteinText {τ : Type} (data : Bundle τ) : List (List Char) :=
  data.protein.sequences.map sequenceStr

/-- `const joinedProtein = proteinText.join('')`. -/
def joinedProtein {τ : Type} (data : Bundle τ) : List Char :=
  (proteinText data).flatten

/-- `const phyloData = data.phylo.phylo_data`. -/
def phyloData {τ : Type} (data : Bundle τ) : τ := data.phylo.phylo_data

/-- `useState(0)`: the initial tab-panel selection. -/
def initialPanel : Nat := 0

/-- `handleChange` / `setPanel(newValue)`: the transition operation
unconditionally replaces the current value with the new one. -/
def select (_panel newValue : Nat) : Nat := newValue

/-- The panel value reached after a sequence of `select` events starting
from the initial value. -/
def runSelects (events : List Nat) : Nat :=
  events.foldl select initialPanel

/-- The composed report model handed to the rendering widgets: summary
table, the two plot datasets with layout and export config, the
pass-through tree data, and the two joined sequence text blocks. -/
structure ReportModel (τ : Type) where
  summaryData : List TableSection
  plotDataA : List (Trace Int Int)
  layoutA : Layout
  configA : PlotConfig
  plotDataB : List (Trace (List Char) Int)
  layoutB : Layout
  configB : PlotConfig
  phyloSource : τ
  joinedDNA : List Char
  joinedProtein : List Char

/-- The report assembly performed by the `LocusPage` body: every derived
dataset is a function of the bundle alone. -/
def buildReport {τ : Type} (data : Bundle τ) : ReportModel τ :=
  { summaryData := data.summaryData
    plotDataA := plotDataPanelA data
    layoutA := layoutPanelA
    configA := configPanelA data
    plotDataB := plotDataPanelB data
    layoutB := layoutPanelB
    configB := configPanelB data
    phyloSource := phyloData data
    joinedDNA := joinedDNA data
    joinedProtein := joinedProtein data }

/-- `hidden={value !== index}` of the `TabPanel` wrapper. -/
def tabPanelHidden (value index : Nat) : Bool := value != index

/-- The rendering boundary: the report model plus the panel value and the
two `TabPanel` hidden flags derived from it. -/
structure PageRender (τ : Type) where
  report : ReportModel τ
  panelValue : Nat
  panelAHidden : Bool
  panelBHidden : Bool

/-- One rendering pass of `LocusPage` given the bundle and the current
panel-selection state. -/
def renderLocusPage {τ : Type} (data : Bundle τ) (panel : Nat) : PageRender τ :=
  { report := buildReport data
    panelValue := panel
    panelAHidden := tabPanelHidden panel 0
    panelBHidden := tabPanelHidden panel 1 }

/-- Modelled from the spec: split a text block on the line terminator
(the splitting half of the round-trip property; the repository contains
no reader for the emitted block).  `splitNl []` is `[[]]`, matching the
behavior of splitting on a separator. -/
def splitNl : List Char → List (List Char)
  | [] => [[]]
  | c :: cs =>
    if c = '\n' then [] :: splitNl cs
    else
      match splitNl cs with
      | [] => [[c]]
      | line :: rest => (c :: line) :: rest

/-- Modelled from the spec: recover the record list from the split lines —
lines alternate between a marker-prefixed header carrying the name and a
sequence line; a block produced by the formatter ends with a terminator,
so the split ends with one empty chunk. -/
def recoverRecords : List (List Char) → Option (List SeqRecord)
  | [[]] => some []
  | (c :: nm) :: sq :: rest =>
    if c = '>' then
      (recoverRecords rest).map (fun recs => { name := nm, sequence := sq } :: recs)
    else none
  | _ => none

/-- A JavaScript value, as needed to model the property/index accesses
performed by `LocusPage` on the raw bundle object. -/
inductive JSVal : Type where
  | jsUndefined : JSVal
  | num : Int → JSVal
  | str : List Char → JSVal
  | arr : List JSVal → JSVal
  | obj : List (List Char × JSVal) → JSVal

/-- The only failure mode of these accesses: a `TypeError` thrown when a
property or index of `undefined` is read, or a non-function is called. -/
inductive JSErr : Type where
  | typeError : JSErr
  deriving DecidableEq, Repr

/-- The value of a field of an object: the stored value when the key is
present, `undefined` when absent. -/
def jsField (fields : List (List Char × JSVal)) (key : List Char) : JSVal :=
  match fields.find? (fun p => p.1 == key) with
  | some p => p.2
  | none => .jsUndefined

/-- JavaScript property access `v.key`: throws on `undefined`; on an
object yields the field or `undefined` when absent; on other values
yields `undefined` (no own properties are modelled). -/
def getProp : JSVal → List Char → Except JSErr JSVal
  | .jsUndefined, _ => .error .typeError
  | .obj fields, key => .ok (jsField fields key)
  | _, _ => .ok .jsUndefined

/-- JavaScript index access `v[i]`: throws on `undefined`; on an array
yields the element or `undefined` when out of range; otherwise
`undefined`. -/
def getIndex : JSVal → Nat → Except JSErr JSVal
  | .jsUndefined, _ => .error .typeError
  | .arr elems, i => .ok (elems.getD i .jsUndefined)
  | _, _ => .ok .jsUndefined

def kSummaryData : List Char := "summaryData".data
def kRows : List Char := "rows".data
def kLengths : List Char := "lengths".data
def kIds : List Char := "ids".data
def kPhylo : List Char := "phylo".data
def kPhyloData : List Char := "phylo_data".data
def kDna : List Char := "dna".data
def kSequences : List Char := "sequences".data
def kProtein : List Char := "protein".data
def kName : List Char := "name".data
def kSequence : List Char := "sequence".data

/-- `sequences.map((seq) => ...)`: calling `.map` on a non-array throws;
on an array, each element's `name` and `sequence` properties are read. -/
def mapNameSequence : JSVal → Except JSErr (List (JSVal × JSVal))
  | .arr elems =>
    elems.mapM (fun e => do
      let n ← getProp e kName
      let sq ← getProp e kSequence
      pure (n, sq))
  | _ => .error .typeError

/-- The raw values `LocusPage` extracts from the bundle, in source order. -/
structure LocusAccess where
  locusName : JSVal
  lengths : JSVal
  ids : JSVal
  treeData : JSVal
  dnaPairs : List (JSVal × JSVal)
  proteinPairs : List (JSVal × JSVal)

/-- `const locusName = summaryData[1].rows[0][0]` at the JS level:
`data.summaryData`, then `[1]`, `.rows`, `[0]`, `[0]`. -/
def readLocusName (data : JSVal) : Except JSErr JSVal := do
  let summaryData ← getProp data kSummaryData
  let section1 ← getIndex summaryData 1
  let rows ← getProp section1 kRows
  let row0 ← getIndex rows 0
  getIndex row0 0

/-- `const phyloData = data.phylo.phylo_data` at the JS level. -/
def readTreeData (data : JSVal) : Except JSErr JSVal := do
  let phylo ← getProp data kPhylo
  getProp phylo kPhyloData

/-- `data.dna.sequences.map((seq) => ...)` (and the same for `protein`)
at the JS level: read the container, its `sequences` property, then map
over the records. -/
def readSeqPairs (data : JSVal) (key : List Char) :
    Except JSErr (List (JSVal × JSVal)) := do
  let container ← getProp data key
  let seqs ← getProp container kSequences
  mapNameSequence seqs

/-- The exact chain of property/index accesses the `LocusPage` body
performs on `window.preComputedDataInd`, in source order:
`data.summaryData`, `summaryData[1].rows[0][0]`, `data.lengths`,
`data.ids`, `data.phylo.phylo_data`, `data.dna.sequences` mapped over
`name`/`sequence`, then the same for `data.protein`. -/
def locusPageAccess (data : JSVal) : Except JSErr LocusAccess := do
  let lName ← readLocusName data
  let lengths ← getProp data kLengths
  let ids ← getProp data kIds
  let tree ← readTreeData data
  let dnaPairs ← readSeqPairs data kDna
  let proteinPairs ← readSeqPairs data kProtein
  pure { locusName := lName, lengths := lengths, ids := ids,
         treeData := tree, dnaPairs := dnaPairs, proteinPairs := proteinPairs }

/-- A well-formed `summaryData` value whose locus-name cell holds
`gene_X`. -/
def goodSummary : JSVal :=
  .arr [ .obj [], .obj [ (kRows, .arr [ .arr [ .str ("gene_X".data) ] ]) ] ]

/-- A `summaryData` value whose first row is empty: the locus-name cell
is absent. -/
def emptyCellSummary : JSVal :=
  .arr [ .obj [], .obj [ (kRows, .arr [ .arr [] ]) ] ]

/-- A well-formed `phylo` container. -/
def goodPhylo : JSVal := .obj [ (kPhyloData, .str ("(A,B);".data)) ]

/-- A well-formed `dna` / `protein` container with no records. -/
def goodSeqs : JSVal := .obj [ (kSequences, .arr []) ]

/-- Bundle fields that are complete except for the `lengths` field. -/
def fieldsNoLengths : List (List Char × JSVal) :=
  [ (kSummaryData, goodSummary),
    (kIds, .arr [ .str ("allele_1".data) ]),
    (kPhylo, goodPhylo),
    (kDna, goodSeqs),
    (kProtein, goodSeqs) ]

/-- A bundle object that is complete except for the `lengths` field. -/
def bundleNoLengths : JSVal := .obj fieldsNoLengths

/-- Bundle fields that are complete except for the `phylo` container. -/
def fieldsNoPhylo : List (List Char × JSVal) :=
  [ (kSummaryData, goodSummary),
    (kLengths, .arr [ .num 150 ]),
    (kIds, .arr [ .str ("allele_1".data) ]),
    (kDna, goodSeqs),
    (kProtein, goodSeqs) ]

/-- Bundle fields that are complete except for the `dna` container. -/
def fieldsNoDna : List (List Char × JSVal) :=
  [ (kSummaryData, goodSummary),
    (kLengths, .arr [ .num 150 ]),
    (kIds, .arr [ .str ("allele_1".data) ]),
    (kPhylo, goodPhylo),
    (kProtein, goodSeqs) ]

/-- Bundle fields that are complete except for the `protein` container. -/
def fieldsNoProtein : List (List Char × JSVal) :=
  [ (kSummaryData, goodSummary),
    (kLengths, .arr [ .num 150 ]),
    (kIds, .arr [ .str ("allele_1".data) ]),
    (kPhylo, goodPhylo),
    (kDna, goodSeqs) ]

/-- Complete bundle fields whose locus-name cell is absent. -/
def fieldsNoCell : List (List Char × JSVal) :=
  [ (kSummaryData, emptyCellSummary),
    (kLengths, .arr [ .num 150 ]),
    (kIds, .arr [ .str ("allele_1".data) ]),
    (kPhylo, goodPhylo),
    (kDna, goodSeqs),
    (kProtein, goodSeqs) ]

/-- A concrete bundle realizing the spec's scenario: three alleles of
lengths 150, 153, 150 for locus `gene_X`. -/
def exBundle : Bundle Unit :=
  { summaryData := [ { rows := [] }, { rows := [ [ "gene_X".data ] ] } ]
    lengths := [150, 153, 150]
    ids := [ "allele_1".data, "allele_2".data, "allele_3".data ]
    phylo := { phylo_data := () }
    dna := { sequences := [ { name := "allele_1".data, sequence := "ATGC".data } ] }
    protein := { sequences := [ { name := "allele_1".data, sequence := "MT".data } ] } }

lemma foldl_select_getLast (events : List Nat) :
    ∀ init : Nat, events.foldl select init = events.getLast?.getD init := by
  induction events with
  | nil => intro init; rfl
  | cons a l ih =>
    intro init
    cases l with
    | nil => rfl
    | cons b l2 =>
      rw [List.foldl_cons, List.getLast?_cons_cons, ih]
      rcases e : (b :: l2).getLast? with _ | c
      · exact absurd (List.getLast?_eq_none_iff.mp e) (List.cons_ne_nil b l2)
      · rfl

lemma foldl_select_mem (events : List Nat) :
    ∀ init : Nat, (init = 0 ∨ init = 1) → (∀ e ∈ events, e = 0 ∨ e = 1) →
      (events.foldl select init = 0 ∨ events.foldl select init = 1) := by
  induction events with
  | nil => exact fun init hi _ => hi
  | cons a l ih =>
    intro init _ h
    exact ih a (h a (List.mem_cons_self a l)) (fun e he => h e (List.mem_cons_of_mem a he))

lemma splitNl_append (a : List Char) :
    ∀ rest : List Char, '\n' ∉ a →
      splitNl (a ++ '\n' :: rest) = a :: splitNl rest := by
  induction a with
  | nil => intro rest _; simp [splitNl]
  | cons c a ih =>
    intro rest h
    have hc : ¬ c = '\n' := fun e => h (e ▸ List.mem_cons_self c a)
    have ha : '\n' ∉ a := fun m => h (List.mem_cons_of_mem c m)
    simp only [List.cons_append, splitNl, if_neg hc, List.append_eq, ih rest ha]

/-- Claim C1: for a bundle whose `lengths` and `ids` both have N entries,
both plot datasets have exactly N points, the points of the
identifier-vs-length dataset are the index-paired `(ids[i], lengths[i])`,
and the length-distribution dataset uses `lengths` verbatim as both its
`x` and `y` data. -/
theorem plot_datasets_point_counts {τ : Type} (b : Bundle τ) (N : ℕ)
    (h1 : b.lengths.length = N) (h2 : b.ids.length = N) :
    (points (panelATrace b)).length = N ∧
    (points (panelBTrace b)).length = N ∧
    points (panelBTrace b) = b.ids.zip b.lengths ∧
    (panelATrace b).x = b.lengths ∧ (panelATrace b).y = b.lengths := by
  refine ⟨?_, ?_, rfl, rfl, rfl⟩
  · simp [points, panelATrace, xDataPanelA, yDataPanelA, h1]
  · simp [points, panelBTrace, xDataPanelB, yDataPanelB, xDataPanelA, h1, h2]

/-- Witness for C1 at the spec's scenario bundle (N = 3). -/
theorem plot_datasets_point_counts_witness :
    (points (panelATrace exBundle)).length = 3 ∧
    (points (panelBTrace exBundle)).length = 3 ∧
    points (panelBTrace exBundle) = exBundle.ids.zip exBundle.lengths ∧
    (panelATrace exBundle).x = exBundle.lengths ∧
    (panelATrace exBundle).y = exBundle.lengths :=
  plot_datasets_point_counts exBundle 3 rfl rfl

/-- Claim C2: the sequence formatter yields the empty block on empty
input, prepends each record's marker-prefixed two-line entry in input
order with no extra separator, and maps the single record
`allele_1`/`ATGC` to exactly the expected block. -/
theorem formatSeqs_concat_spec :
    formatSeqs [] = [] ∧
    (∀ (r : SeqRecord) (l : List SeqRecord),
      formatSeqs (r :: l) = sequenceStr r ++ formatSeqs l) ∧
    (∀ r : SeqRecord,
      sequenceStr r = ('>' :: r.name) ++ ('\n' :: r.sequence) ++ ['\n']) ∧
    formatSeqs [ { name := "allele_1".data, sequence := "ATGC".data } ] =
      ">allele_1\nATGC\n".data := by
  refine ⟨rfl, ?_, ?_, by decide⟩
  · intro r l
    simp [formatSeqs]
  · intro r
    simp [sequenceStr]

/-- Counterexample to claim C3 as stated: the transition operation is an
unconditional overwrite, so `select(2)` reaches the value 2, outside the
two defined indices. -/
theorem panel_select_escapes_set :
    ¬ (runSelects [2] = 0 ∨ runSelects [2] = 1) := by decide

/-- Claim C3 (amended): when every `select` argument is one of the two
defined indices — as the tab widget supplies — the panel value stays in
the two-element set from the initial value 0 onward. -/
theorem panel_select_closed_in_set (events : List ℕ)
    (h : ∀ e ∈ events, e = 0 ∨ e = 1) :
    runSelects events = 0 ∨ runSelects events = 1 :=
  foldl_select_mem events initialPanel (Or.inl rfl) h

/-- Witness for the amended C3 at the event sequence `[1, 0]`. -/
theorem panel_select_closed_in_set_witness :
    runSelects [1, 0] = 0 ∨ runSelects [1, 0] = 1 :=
  panel_select_closed_in_set [1, 0] (by decide)

/-- Claim C4: panel A's export filename is the locus name plus
`_AlleleSizes`, panel B's is the constant `AlleleModeSize`, and both
specify SVG format, a 700×500 canvas and scale 1. -/
theorem export_config_values {τ : Type} (b : Bundle τ) :
    (configPanelA b).toImageButtonOptions.filename =
      locusName b ++ "_AlleleSizes".data ∧
    (configPanelB b).toImageButtonOptions.filename = "AlleleModeSize".data ∧
    (configPanelA b).toImageButtonOptions.format = "svg".data ∧
    (configPanelB b).toImageButtonOptions.format = "svg".data ∧
    (configPanelA b).toImageButtonOptions.width = 700 ∧
    (configPanelA b).toImageButtonOptions.height = 500 ∧
    (configPanelA b).toImageButtonOptions.scale = 1 ∧
    (configPanelB b).toImageButtonOptions.width = 700 ∧
    (configPanelB b).toImageButtonOptions.height = 500 ∧
    (configPanelB b).toImageButtonOptions.scale = 1 :=
  ⟨rfl, rfl, rfl, rfl, rfl, rfl, rfl, rfl, rfl, rfl⟩

/-- Counterexample to claim C5 as stated: a sequence containing the line
terminator is emitted verbatim, and splitting the block cannot recover
it. -/
theorem formatSeqs_roundtrip_newline_cex :
    recoverRecords (splitNl (formatSeqs
        [ { name := "a".data, sequence := "b\nc".data } ])) ≠
      some [ { name := "a".data, sequence := "b\nc".data } ] := by decide

/-- Claim C5 (amended): for records whose names and sequences contain no
line terminator, splitting the formatted block on line terminators and
the marker character recovers exactly the original list. -/
theorem formatSeqs_roundtrip (l : List SeqRecord)
    (h : ∀ r ∈ l, '\n' ∉ r.name ∧ '\n' ∉ r.sequence) :
    recoverRecords (splitNl (formatSeqs l)) = some l := by
  induction l with
  | nil => rfl
  | cons r l ih =>
    obtain ⟨hn, hs⟩ := h r (List.mem_cons_self r l)
    have hrest : ∀ x ∈ l, '\n' ∉ x.name ∧ '\n' ∉ x.sequence :=
      fun x hx => h x (List.mem_cons_of_mem r hx)
    have hhead : '\n' ∉ '>' :: r.name := by
      intro m
      rcases List.mem_cons.mp m with e | m2
      · exact absurd e (by decide)
      · exact hn m2
    have hfmt : formatSeqs (r :: l) =
        ('>' :: r.name) ++ '\n' :: (r.sequence ++ '\n' :: formatSeqs l) := by
      simp [formatSeqs, sequenceStr]
    rw [hfmt, splitNl_append ('>' :: r.name) _ hhead, splitNl_append r.sequence _ hs]
    simp only [recoverRecords, if_pos]
    rw [ih hrest]
    rfl

/-- Witness for the amended C5 at the spec's single-record scenario. -/
theorem formatSeqs_roundtrip_witness :
    recoverRecords (splitNl (formatSeqs
        [ { name := "allele_1".data, sequence := "ATGC".data } ])) =
      some [ { name := "allele_1".data, sequence := "ATGC".data } ] :=
  formatSeqs_roundtrip
    [ { name := "allele_1".data, sequence := "ATGC".data } ] (by decide)

/-- Claim C6: the panel state starts at 0, `select(1)` then `select(0)`
returns it to the initial value, and after any event sequence the state
equals the last `select` argument (or the initial 0 if none). -/
theorem panel_state_last_write_wins :
    initialPanel = 0 ∧
    runSelects [1, 0] = initialPanel ∧
    ∀ events : List ℕ, runSelects events = events.getLast?.getD initialPanel :=
  ⟨rfl, rfl, fun events => foldl_select_getLast events initialPanel⟩

/-- Claim C7: the report model's tree data is the bundle's
`phylo.phylo_data`, passed through unmodified. -/
theorem report_phylo_passthrough {τ : Type} (b : Bundle τ) :
    (buildReport b).phyloSource = b.phylo.phylo_data := rfl

/-- Claim C8: two rendering passes over the same bundle that differ only
in the panel-selection value produce identical report models (summary
table, both plot datasets with layout and export config, both sequence
text blocks, and the tree data). -/
theorem panel_noninterference {τ : Type} (b : Bundle τ) (p1 p2 : ℕ) :
    (renderLocusPage b p1).report = (renderLocusPage b p2).report := rfl

/-- Counterexample to claim C9 as stated: on a bundle whose `lengths`
field is absent, composition does not fail at the access — it completes,
carrying `undefined` as the lengths value into the datasets. -/
theorem missing_lengths_still_composes :
    locusPageAccess bundleNoLengths =
      .ok { locusName := .str ("gene_X".data), lengths := .jsUndefined,
            ids := .arr [ .str ("allele_1".data) ],
            treeData := .str ("(A,B);".data),
            dnaPairs := [], proteinPairs := [] } := by
  rfl

/-- Claim C9 (amended): a missing container object (`summaryData`,
`phylo`, `dna` or `protein`) makes composition fail immediately at the
first dereference of the resulting undefined value, with no guarding,
defaulting or recovery; an absent leaf field — the `lengths` sequence or
the locus-name cell — does not fail at its access: composition completes
and an undefined value flows into the report in its place. -/
theorem bundle_absence_behavior :
    (∀ fields : List (List Char × JSVal),
      fields.find? (fun p => p.1 == kSummaryData) = none →
      locusPageAccess (.obj fields) = .error .typeError) ∧
    (∀ (fields : List (List Char × JSVal)) (v : JSVal),
      readLocusName (.obj fields) = .ok v →
      fields.find? (fun p => p.1 == kPhylo) = none →
      locusPageAccess (.obj fields) = .error .typeError) ∧
    (∀ (fields : List (List Char × JSVal)) (v t : JSVal),
      readLocusName (.obj fields) = .ok v →
      readTreeData (.obj fields) = .ok t →
      fields.find? (fun p => p.1 == kDna) = none →
      locusPageAccess (.obj fields) = .error .typeError) ∧
    (∀ (fields : List (List Char × JSVal)) (v t : JSVal)
      (dp : List (JSVal × JSVal)),
      readLocusName (.obj fields) = .ok v →
      readTreeData (.obj fields) = .ok t →
      readSeqPairs (.obj fields) kDna = .ok dp →
      fields.find? (fun p => p.1 == kProtein) = none →
      locusPageAccess (.obj fields) = .error .typeError) ∧
    (∀ (fields : List (List Char × JSVal)) (v t : JSVal)
      (dp pp : List (JSVal × JSVal)),
      readLocusName (.obj fields) = .ok v →
      readTreeData (.obj fields) = .ok t →
      readSeqPairs (.obj fields) kDna = .ok dp →
      readSeqPairs (.obj fields) kProtein = .ok pp →
      fields.find? (fun p => p.1 == kLengths) = none →
      locusPageAccess (.obj fields) =
        .ok { locusName := v, lengths := .jsUndefined,
              ids := jsField fields kIds, treeData := t,
              dnaPairs := dp, proteinPairs := pp }) ∧
    (∀ (fields : List (List Char × JSVal)) (s0 : JSVal)
      (srest rrest : List JSVal) (t : JSVal) (dp pp : List (JSVal × JSVal)),
      fields.find? (fun p => p.1 == kSummaryData) =
        some (kSummaryData,
          .arr (s0 :: .obj [ (kRows, .arr (.arr [] :: rrest)) ] :: srest)) →
      readTreeData (.obj fields) = .ok t →
      readSeqPairs (.obj fields) kDna = .ok dp →
      readSeqPairs (.obj fields) kProtein = .ok pp →
      locusPageAccess (.obj fields) =
        .ok { locusName := .jsUndefined, lengths := jsField fields kLengths,
              ids := jsField fields kIds, treeData := t,
              dnaPairs := dp, proteinPairs := pp }) := by
  refine ⟨?_, ?_, ?_, ?_, ?_, ?_⟩
  · intro fields h
    unfold locusPageAccess readLocusName
    rw [show getProp (.obj fields) kSummaryData = .ok .jsUndefined by
      simp [getProp, jsField, h]]
    rfl
  · intro fields v hname h
    unfold locusPageAccess readTreeData
    rw [hname, show getProp (.obj fields) kPhylo = .ok .jsUndefined by
      simp [getProp, jsField, h]]
    rfl
  · intro fields v t hname htree h
    unfold locusPageAccess readSeqPairs
    rw [hname, htree, show getProp (.obj fields) kDna = .ok .jsUndefined by
      simp [getProp, jsField, h]]
    rfl
  · intro fields v t dp hname htree hdna h
    unfold locusPageAccess
    rw [hname, htree, hdna]
    unfold readSeqPairs
    rw [show getProp (.obj fields) kProtein = .ok .jsUndefined by
      simp [getProp, jsField, h]]
    rfl
  · intro fields v t dp pp hname htree hdna hprot h
    unfold locusPageAccess
    rw [hname, htree, hdna, hprot,
      show getProp (.obj fields) kLengths = .ok .jsUndefined by
        simp [getProp, jsField, h]]
    rfl
  · intro fields s0 srest rrest t dp pp hsum htree hdna hprot
    unfold locusPageAccess readLocusName
    rw [show getProp (.obj fields) kSummaryData =
        .ok (.arr (s0 :: .obj [ (kRows, .arr (.arr [] :: rrest)) ] :: srest)) by
      simp [getProp, jsField, hsum]]
    rw [htree, hdna, hprot]
    rfl

/-- Witness for the amended C9: each absence case exercised at a
concrete bundle object. -/
theorem bundle_absence_behavior_witness :
    locusPageAccess (.obj []) = .error .typeError ∧
    locusPageAccess (.obj fieldsNoPhylo) = .error .typeError ∧
    locusPageAccess (.obj fieldsNoDna) = .error .typeError ∧
    locusPageAccess (.obj fieldsNoProtein) = .error .typeError ∧
    locusPageAccess (.obj fieldsNoLengths) =
      .ok { locusName := .str ("gene_X".data), lengths := .jsUndefined,
            ids := jsField fieldsNoLengths kIds,
            treeData := .str ("(A,B);".data),
            dnaPairs := [], proteinPairs := [] } ∧
    locusPageAccess (.obj fieldsNoCell) =
      .ok { locusName := .jsUndefined,
            lengths := jsField fieldsNoCell kLengths,
            ids := jsField fieldsNoCell kIds,
            treeData := .str ("(A,B);".data),
            dnaPairs := [], proteinPairs := [] } :=
  ⟨bundle_absence_behavior.1 [] rfl,
   bundle_absence_behavior.2.1 fieldsNoPhylo (.str ("gene_X".data)) rfl rfl,
   bundle_absence_behavior.2.2.1 fieldsNoDna (.str ("gene_X".data))
     (.str ("(A,B);".data)) rfl rfl rfl,
   bundle_absence_behavior.2.2.2.1 fieldsNoProtein (.str ("gene_X".data))
     (.str ("(A,B);".data)) [] rfl rfl rfl rfl,
   bundle_absence_behavior.2.2.2.2.1 fieldsNoLengths (.str ("gene_X".data))
     (.str ("(A,B);".data)) [] [] rfl rfl rfl rfl rfl,
   bundle_absence_behavior.2.2.2.2.2 fieldsNoCell (.obj [])
     [] [] (.str ("(A,B);".data)) [] [] rfl rfl rfl rfl⟩

/-- Claim C10: the y-data of the identifier-vs-length dataset, and both
the x-data and y-data of the length-distribution dataset, are all the
bundle's `lengths` sequence, so the two datasets agree element-for-
element on allele lengths. -/
theorem datasets_share_lengths {τ : Type} (b : Bundle τ) :
    (panelBTrace b).y = b.lengths ∧
    (panelATrace b).x = b.lengths ∧
    (panelATrace b).y = b.lengths :=
  ⟨rfl, rfl, rfl⟩
